import Mathlib

/-!
Shallow embedding of `src/analyzer.py` (nonprofit-health-data-analyzer).

The script is a single linear pandas pipeline
`analyze_immunization_data(file_path)`:
load CSV → filter `Vaccine == "DTP3"` → drop three columns →
`dropna(subset=["COVERAGE"])` → `groupby("COUNTRY")["COVERAGE"].mean()`
→ `sort_values(ascending=True)` → `head(10)` → pick first 3 countries →
subset rows by `COUNTRY.isin(...)` → draw and save a plot, with a single
`except FileNotFoundError` handler around the whole body.

A DataFrame is modelled as a `Table`: a column schema plus rows, each row an
association list from column name to cell `Value` (string, rational number,
or null standing for NaN/missing).  Numeric cells use `ℚ` in place of
floating point; every value appearing in the analysed claims is exactly
representable.  Each pandas step that can raise `KeyError` on an absent
column returns `Except String`.
-/

namespace Analyzer

/-- A cell of the table: a string, a number (ℚ in place of float), or
null (pandas NaN / missing). -/
inductive Value where
  | str (s : String)
  | num (q : ℚ)
  | null
deriving DecidableEq, Repr

/-- One row: an association list from column name to cell value. -/
abbrev Row := List (String × Value)

/-- A DataFrame: a column schema and a list of rows. -/
structure Table where
  cols : List String
  rows : List Row
deriving DecidableEq, Repr

/-- Cell of row `r` in column `c` (first binding wins), `none` when the
column is absent from the row. -/
def getCol (r : Row) (c : String) : Option Value :=
  (r.find? (fun p => p.1 == c)).map (fun p => p.2)

/-- The string held in column `c` of row `r`, when it holds a string. -/
def strCell (r : Row) (c : String) : Option String :=
  match getCol r c with
  | some (Value.str s) => some s
  | _ => none

/-- pandas notion of a present (non-NaN) cell: a string or a number.
`none` (column absent) and `Value.null` (NaN) are missing. -/
def notMissing (v : Option Value) : Bool :=
  match v with
  | some (Value.str _) => true
  | some (Value.num _) => true
  | _ => false

/-! ### Cleaning (lines 32-41 of the source) -/

/-- `df[df[c] == v]` (line 32): `KeyError` if `c` is not a column, else keep
the rows whose cell in `c` equals `v` (a NaN cell compares unequal). -/
def filterEq (t : Table) (c : String) (v : Value) : Except String Table :=
  if c ∈ t.cols then
    Except.ok { cols := t.cols, rows := t.rows.filter (fun r => getCol r c == some v) }
  else Except.error ("KeyError: " ++ c)

/-- `cols_to_drop` of line 35 of the source. -/
def cols_to_drop : List String := ["WHO_REGION", "ISO_CODE", "DATA_SOURCE"]

/-- `df.drop(columns=cs)` (line 36) with the pandas default
`errors="raise"`: `KeyError` if ANY listed column is absent, else remove the
listed columns from the schema and from every row. -/
def dropColumns (t : Table) (cs : List String) : Except String Table :=
  if cs.all (fun c => t.cols.contains c) then
    Except.ok { cols := t.cols.filter (fun c => !cs.contains c),
                rows := t.rows.map (fun r => r.filter (fun p => !cs.contains p.1)) }
  else Except.error "KeyError: labels not found in axis"

/-- `df.dropna(subset=[c])` (line 40): `KeyError` if `c` is absent, else
remove the rows whose cell in `c` is missing. -/
def dropnaSubset (t : Table) (c : String) : Except String Table :=
  if c ∈ t.cols then
    Except.ok { cols := t.cols, rows := t.rows.filter (fun r => notMissing (getCol r c)) }
  else Except.error ("KeyError: " ++ c)

/-- The local variables of the cleaning block: the loaded frame `df`
(untouched because line 32 takes a `.copy()` before the in-place drops) and
the derived frame `df_dtp`, plus the `rows_dropped` count of line 41. -/
structure CleanLocals where
  df : Table
  df_dtp : Table
  rows_dropped : Nat
deriving DecidableEq, Repr

/-- Lines 32-41 of the source: filter to DTP3 (then `.copy()`), drop the
three columns, drop rows with missing COVERAGE, count the rows removed.
All in-place mutations act on the copy, so `df` is returned unchanged. -/
def cleanBlock (df : Table) : Except String CleanLocals :=
  match filterEq df "Vaccine" (Value.str "DTP3") with
  | Except.error e => Except.error e
  | Except.ok d1 =>
    match dropColumns d1 cols_to_drop with
    | Except.error e => Except.error e
    | Except.ok d2 =>
      match dropnaSubset d2 "COVERAGE" with
      | Except.error e => Except.error e
      | Except.ok d3 =>
        Except.ok { df := df, df_dtp := d3,
                    rows_dropped := d2.rows.length - d3.rows.length }

/-- The Cleaner contract of the spec (`clean`): the cleaned table together
with the number of rows dropped for missing metric. -/
def clean (df : Table) : Except String (Table × Nat) :=
  (cleanBlock df).map (fun st => (st.df_dtp, st.rows_dropped))

/-! ### Ranking (lines 50-51 of the source)

`df_dtp.groupby("COUNTRY")["COVERAGE"].mean().sort_values(ascending=True)`.
pandas `groupby` (default `sort=True`, `dropna=True`) produces one entry per
distinct non-null key, keys ascending; `.mean()` skips missing values and is
NaN for a group with no values; `sort_values` reorders by value, NaN last.
Its default `kind="quicksort"` is documented as NOT stable, so the relative
order of entries with tied means is implementation-incidental.  The model
uses `List.insertionSort` as one concrete sort; no property proved below
depends on where that sort places tied means (lengths, the empty case, the
error cases, and rankings with pairwise distinct means agree across every
ascending-by-value sort). -/

/-- Lexicographic comparison of two char lists by code point, the order
Python uses on strings. -/
def charsLe : List Char → List Char → Bool
  | [], _ => true
  | _ :: _, [] => false
  | a :: as, b :: bs =>
    if a.toNat < b.toNat then true
    else if b.toNat < a.toNat then false
    else charsLe as bs

/-- Non-strict lexicographic order on group identifiers. -/
def strLe (a b : String) : Bool := charsLe a.data b.data

/-- The (string) COUNTRY key of each row, in row order; rows with a missing
or non-string key are excluded, as pandas `groupby(dropna=True)` does. -/
def countryKeys (t : Table) : List String :=
  t.rows.filterMap (fun r => strCell r "COUNTRY")

/-- The numeric COVERAGE values of the rows of group `g`, missing values
skipped (pandas mean has `skipna=True`). -/
def groupValues (t : Table) (g : String) : List ℚ :=
  (t.rows.filter (fun r => strCell r "COUNTRY" == some g)).filterMap
    (fun r => match getCol r "COVERAGE" with
      | some (Value.num q) => some q
      | _ => none)

/-- Arithmetic mean; `none` models the NaN pandas produces on an empty
group. -/
def mean (l : List ℚ) : Option ℚ :=
  if l.isEmpty then none else some (l.sum / l.length)

/-- Order used by `sort_values(ascending=True)` on mean values: ordinary
order on numbers, NaN (`none`) sorted last (`na_position="last"`). -/
def valLE : Option ℚ → Option ℚ → Bool
  | some a, some b => decide (a ≤ b)
  | some _, none => true
  | none, some _ => false
  | none, none => true

/-- The distinct group keys, ascending, as `groupby(sort=True)` yields. -/
def sortedKeys (t : Table) : List String :=
  (countryKeys t).dedup.insertionSort (fun a b => strLe a b = true)

/-- Line 50: per-country mean coverage, sorted ascending by mean.
`KeyError` when COUNTRY or COVERAGE is not a column. -/
def avg_coverage_by_country (t : Table) : Except String (List (String × Option ℚ)) :=
  if "COUNTRY" ∈ t.cols then
    if "COVERAGE" ∈ t.cols then
      Except.ok (((sortedKeys t).map (fun g => (g, mean (groupValues t g)))).insertionSort
        (fun a b => valLE a.2 b.2 = true))
    else Except.error "KeyError: COVERAGE"
  else Except.error "KeyError: COUNTRY"

/-- The Aggregator contract of the spec (`rank_groups`): the first `n`
entries of the ascending mean ranking; the source instantiates `n` with 10
via `.head(10)`. -/
def rank_groups (t : Table) (n : Nat) : Except String (List (String × Option ℚ)) :=
  (avg_coverage_by_country t).map (fun l => l.take n)

/-- Line 51: `avg_coverage_by_country.head(10)`. -/
def lowest_coverage_countries (t : Table) : Except String (List (String × Option ℚ)) :=
  rank_groups t 10

/-! ### Trend selection (lines 59-60 of the source) -/

/-- Line 59: `lowest_coverage_countries.index[:3].tolist()`. -/
def countries_to_plot (t : Table) : Except String (List String) :=
  (lowest_coverage_countries t).map (fun l => (l.map (fun p => p.1)).take 3)

/-- Row predicate of line 60: `df_dtp["COUNTRY"].isin(gs)` (a missing or
non-string cell is not in the list). -/
def inPlot (gs : List String) (r : Row) : Bool :=
  match strCell r "COUNTRY" with
  | some s => gs.contains s
  | none => false

/-- Line 60: `df_trend = df_dtp[df_dtp["COUNTRY"].isin(countries_to_plot)]`,
keeping the rows in their original order. -/
def df_trend (t : Table) : Except String Table :=
  (countries_to_plot t).map (fun gs =>
    { cols := t.cols, rows := t.rows.filter (inPlot gs) })

/-- Row predicate: the row belongs to group `g`. -/
def countryIs (g : String) (r : Row) : Bool :=
  strCell r "COUNTRY" == some g

/-- The (period, value) pair a row contributes to its trend series. -/
def pairOf (r : Row) : Option Value × Option Value :=
  (getCol r "YEAR", getCol r "COVERAGE")

/-- The Trend Selector contract of the spec (`select_trend`): the mapping
from each plotted country to its (YEAR, COVERAGE) pairs, read off
`df_trend` in row order — exactly the per-group series the renderer call of
line 69 receives (`hue="COUNTRY"`). -/
def trendSeries (t : Table) : Except String (List (String × List (Option Value × Option Value))) :=
  match countries_to_plot t with
  | Except.error e => Except.error e
  | Except.ok gs =>
    let dft := t.rows.filter (inPlot gs)
    Except.ok (gs.map (fun g => (g, (dft.filter (countryIs g)).map pairOf)))

/-- Non-strict period order between two YEAR cells: both must be numbers. -/
def periodLE : Option Value → Option Value → Bool
  | some (Value.num a), some (Value.num b) => decide (a ≤ b)
  | _, _ => false

/-- Whether a series of (period, value) pairs is ordered by period
ascending. -/
def periodAscending : List (Option Value × Option Value) → Bool
  | [] => true
  | [_] => true
  | a :: b :: rest => periodLE a.1 b.1 && periodAscending (b :: rest)

/-! ### The whole pipeline (lines 11-90 of the source)

The filesystem is a map from path to what is there.  The observable outcome
of a run is what it printed, which files it wrote, and whether it returned
normally (Python returns `None` on both the normal path and the handled
missing-file path) or an uncaught exception escaped. -/

/-- What the filesystem holds at a path: no file (`pd.read_csv` raises
`FileNotFoundError`, the one exception line 87 catches), a file that exists
but cannot be read (`pd.read_csv` raises `PermissionError`, which is not a
`FileNotFoundError` and escapes the handler), or a readable file parsed
into a table. -/
inductive FsEntry where
  | absent
  | unreadable
  | table (t : Table)
deriving DecidableEq, Repr

/-- Observable outcome of one run. -/
inductive Outcome where
  | ok (printed : List String) (artifacts : List String)
  | raised (exc : String) (printed : List String)
deriving DecidableEq, Repr

/-- First diagnostic line of the `except FileNotFoundError` handler
(line 88; quote characters elided from the model of stdout). -/
def fnfLine1 (file_path : String) : String :=
  "Error: The file " ++ file_path ++ " was not found."

/-- Second diagnostic line of the handler (line 89). -/
def fnfLine2 : String :=
  "Please download the immunization_coverage.csv dataset and place it in the same directory."

/-- Path the plot is saved to (line 79). -/
def output_plot_path : String := "immunization_coverage_trends.png"

/-- `analyze_immunization_data(file_path)`: the whole pipeline.  Only
`FileNotFoundError` is caught (lines 87-90, producing two diagnostic lines
and `return None` with nothing written); the `PermissionError` of an
existing unreadable file escapes uncaught, as does a `KeyError` from any
cleaning or aggregation step and the seaborn error when YEAR is not a
column of the frame passed to `lineplot` (line 69). -/
def analyze_immunization_data (fs : String → FsEntry) (file_path : String) : Outcome :=
  match fs file_path with
  | FsEntry.absent => Outcome.ok [fnfLine1 file_path, fnfLine2] []
  | FsEntry.unreadable => Outcome.raised "PermissionError" []
  | FsEntry.table df =>
    let pr0 := ["--- Starting Global Health Data Analysis ---",
      "Initial dataset loaded with " ++ toString df.rows.length ++ " rows and "
        ++ toString df.cols.length ++ " columns.\n",
      "Cleaning and preparing the data..."]
    match cleanBlock df with
    | Except.error e => Outcome.raised e pr0
    | Except.ok st =>
      let pr1 := pr0 ++
        ["- Focused on DTP3 vaccine and dropped " ++ toString st.rows_dropped
           ++ " rows with no coverage data.",
         "Prepared dataset has " ++ toString st.df_dtp.rows.length ++ " records.\n",
         "--- Performing Analysis ---"]
      match lowest_coverage_countries st.df_dtp with
      | Except.error e => Outcome.raised e pr1
      | Except.ok lcc =>
        let gs := (lcc.map (fun p => p.1)).take 3
        let pr2 := pr1 ++
          ["Top 10 Countries with the Lowest Average DTP3 Immunization Coverage:",
           reprStr lcc,
           "\nInsight: A nonprofit could use this list to identify countries that may require the most urgent aid or programmatic support for vaccination campaigns.\n",
           "Analyzing coverage trend over time for: " ++ String.intercalate ", " gs]
        if "YEAR" ∈ st.df_dtp.cols then
          Outcome.ok (pr2 ++
            ["\n--- Analysis Complete ---",
             "A visualization has been saved to " ++ output_plot_path ++ ".",
             "This plot clearly shows the volatility and challenges in maintaining immunization coverage, a key insight for any health-focused NGO."])
            [output_plot_path]
        else Outcome.raised "ValueError: YEAR" pr2

/-! ### Concrete fixture tables -/

/-- A row with the four analysis columns. -/
def mkRow (v : String) (c : String) (y : ℚ) (cov : Option ℚ) : Row :=
  [("Vaccine", Value.str v), ("COUNTRY", Value.str c), ("YEAR", Value.num y),
   ("COVERAGE", match cov with | some q => Value.num q | none => Value.null)]

/-- A row of a full seven-column input file. -/
def mkRow7 (v : String) (c : String) (y : ℚ) (cov : Option ℚ) : Row :=
  mkRow v c y cov ++
    [("WHO_REGION", Value.str "AFR"), ("ISO_CODE", Value.str "AAA"),
     ("DATA_SOURCE", Value.str "WUENIC")]

/-- Cleaned fixture with groups A (mean 40), B (mean 55), C (mean 70). -/
def tFix : Table :=
  { cols := ["Vaccine", "COUNTRY", "YEAR", "COVERAGE"],
    rows := [mkRow "DTP3" "C" 2000 (some 60), mkRow "DTP3" "A" 2000 (some 30),
             mkRow "DTP3" "B" 2001 (some 55), mkRow "DTP3" "A" 2001 (some 50),
             mkRow "DTP3" "C" 2001 (some 80)] }

/-- Cleaned fixture whose only group X has its two rows out of year order. -/
def tBad : Table :=
  { cols := ["Vaccine", "COUNTRY", "YEAR", "COVERAGE"],
    rows := [mkRow "DTP3" "X" 2005 (some 90), mkRow "DTP3" "X" 2003 (some 80)] }

/-- Input table lacking all three drop columns. -/
def tNoDrop : Table :=
  { cols := ["Vaccine", "COUNTRY", "YEAR", "COVERAGE"],
    rows := [mkRow "DTP3" "A" 2000 (some 30)] }

/-- Input table lacking only the ISO_CODE drop column. -/
def tNoIso : Table :=
  { cols := ["Vaccine", "COUNTRY", "YEAR", "COVERAGE", "WHO_REGION", "DATA_SOURCE"],
    rows := [] }

/-- Full seven-column input: one DTP3 row with coverage, one row of another
vaccine, one DTP3 row with missing coverage. -/
def tFull : Table :=
  { cols := ["Vaccine", "COUNTRY", "YEAR", "COVERAGE", "WHO_REGION", "ISO_CODE", "DATA_SOURCE"],
    rows := [mkRow7 "DTP3" "A" 2000 (some 30), mkRow7 "MCV1" "A" 2000 (some 99),
             mkRow7 "DTP3" "B" 2000 none] }

/-- What cleaning `tFull` produces. -/
def tFullCleaned : Table :=
  { cols := ["Vaccine", "COUNTRY", "YEAR", "COVERAGE"],
    rows := [mkRow "DTP3" "A" 2000 (some 30)] }

/-- Readable input table that lacks the COUNTRY column. -/
def tNoCountry : Table :=
  { cols := ["Vaccine", "YEAR", "COVERAGE", "WHO_REGION", "ISO_CODE", "DATA_SOURCE"],
    rows := [] }

/-- Cleaned table with the right schema and no rows. -/
def tEmpty : Table :=
  { cols := ["Vaccine", "COUNTRY", "YEAR", "COVERAGE"], rows := [] }

/-! ### Helper lemmas -/

/-- One step of the association-list lookup. -/
lemma find?_key_cons (q : String × Value) (r : Row) (c : String) :
    List.find? (fun x => x.1 == c) (q :: r) =
      if (q.1 == c) = true then some q else List.find? (fun x => x.1 == c) r := by
  by_cases h : (q.1 == c) = true
  · rw [if_pos h]
    exact List.find?_cons_of_pos _ h
  · rw [if_neg h]
    exact List.find?_cons_of_neg _ h

/-- Dropping columns other than `c` from a row does not change its cell in
`c`. -/
lemma getCol_filter_keys {cs : List String} (r : Row) {c : String}
    (h : cs.contains c = false) :
    getCol (r.filter (fun p => !cs.contains p.1)) c = getCol r c := by
  induction r with
  | nil => rfl
  | cons q r ih =>
    rw [List.filter_cons]
    by_cases hpc : (q.1 == c) = true
    · have hp1 : q.1 = c := by simpa using hpc
      have hcp : (!cs.contains q.1) = true := by rw [hp1, h]; rfl
      rw [if_pos hcp]
      unfold getCol
      rw [find?_key_cons, find?_key_cons, if_pos hpc, if_pos hpc]
    · by_cases hcp : (!cs.contains q.1) = true
      · rw [if_pos hcp]
        unfold getCol at ih ⊢
        rw [find?_key_cons, find?_key_cons, if_neg hpc, if_neg hpc]
        exact ih
      · rw [if_neg hcp]
        unfold getCol at ih ⊢
        rw [find?_key_cons, if_neg hpc]
        exact ih

/-- Inversion of a successful `filterEq`. -/
lemma filterEq_ok {t : Table} {c : String} {v : Value} {t1 : Table}
    (h : filterEq t c v = Except.ok t1) :
    c ∈ t.cols ∧
    t1 = { cols := t.cols, rows := t.rows.filter (fun r => getCol r c == some v) } := by
  unfold filterEq at h
  by_cases hc : c ∈ t.cols
  · rw [if_pos hc] at h
    simp only [Except.ok.injEq] at h
    exact ⟨hc, h.symm⟩
  · rw [if_neg hc] at h
    simp at h

/-- Inversion of a successful `dropColumns`. -/
lemma dropColumns_ok {t : Table} {cs : List String} {t1 : Table}
    (h : dropColumns t cs = Except.ok t1) :
    cs.all (fun c => t.cols.contains c) = true ∧
    t1 = { cols := t.cols.filter (fun c => !cs.contains c),
           rows := t.rows.map (fun r => r.filter (fun p => !cs.contains p.1)) } := by
  unfold dropColumns at h
  by_cases hc : cs.all (fun c => t.cols.contains c) = true
  · rw [if_pos hc] at h
    simp only [Except.ok.injEq] at h
    exact ⟨hc, h.symm⟩
  · rw [if_neg hc] at h
    simp at h

/-- Inversion of a successful `dropnaSubset`. -/
lemma dropnaSubset_ok {t : Table} {c : String} {t1 : Table}
    (h : dropnaSubset t c = Except.ok t1) :
    c ∈ t.cols ∧
    t1 = { cols := t.cols, rows := t.rows.filter (fun r => notMissing (getCol r c)) } := by
  unfold dropnaSubset at h
  by_cases hc : c ∈ t.cols
  · rw [if_pos hc] at h
    simp only [Except.ok.injEq] at h
    exact ⟨hc, h.symm⟩
  · rw [if_neg hc] at h
    simp at h

/-- Unfolding of a successful cleaning block: the three column checks
passed, `df` is untouched, and the cleaned rows are filter-map-filter of the
input rows. -/
lemma cleanBlock_ok {df : Table} {st : CleanLocals}
    (h : cleanBlock df = Except.ok st) :
    st.df = df ∧
    "Vaccine" ∈ df.cols ∧
    cols_to_drop.all (fun c => df.cols.contains c) = true ∧
    "COVERAGE" ∈ df.cols.filter (fun c => !cols_to_drop.contains c) ∧
    st.df_dtp.cols = df.cols.filter (fun c => !cols_to_drop.contains c) ∧
    st.df_dtp.rows =
      ((df.rows.filter (fun r => getCol r "Vaccine" == some (Value.str "DTP3"))).map
        (fun r => r.filter (fun p => !cols_to_drop.contains p.1))).filter
        (fun r => notMissing (getCol r "COVERAGE")) := by
  unfold cleanBlock at h
  cases h1 : filterEq df "Vaccine" (Value.str "DTP3") with
  | error e => rw [h1] at h; simp at h
  | ok d1 =>
    rw [h1] at h
    dsimp only at h
    obtain ⟨hv, hd1⟩ := filterEq_ok h1
    cases h2 : dropColumns d1 cols_to_drop with
    | error e => rw [h2] at h; simp at h
    | ok d2 =>
      rw [h2] at h
      dsimp only at h
      obtain ⟨hall, hd2⟩ := dropColumns_ok h2
      cases h3 : dropnaSubset d2 "COVERAGE" with
      | error e => rw [h3] at h; simp at h
      | ok d3 =>
        rw [h3] at h
        dsimp only at h
        obtain ⟨hcov, hd3⟩ := dropnaSubset_ok h3
        simp only [Except.ok.injEq] at h
        subst h
        subst hd1
        subst hd2
        subst hd3
        exact ⟨rfl, hv, hall, hcov, rfl, rfl⟩

/-- A successful `clean` comes from a successful `cleanBlock`. -/
lemma clean_ok {df : Table} {t : Table} {n : Nat}
    (h : clean df = Except.ok (t, n)) :
    ∃ st, cleanBlock df = Except.ok st ∧ st.df_dtp = t ∧ st.rows_dropped = n := by
  unfold clean at h
  cases hcb : cleanBlock df with
  | error e => rw [hcb] at h; exact absurd h (by simp [Except.map])
  | ok st =>
    rw [hcb] at h
    simp only [Except.map, Except.ok.injEq, Prod.mk.injEq] at h
    exact ⟨st, rfl, h.1, h.2⟩

/-- Inversion of a successful `avg_coverage_by_country`. -/
lemma avg_ok {t : Table} {l : List (String × Option ℚ)}
    (h : avg_coverage_by_country t = Except.ok l) :
    l = ((sortedKeys t).map (fun g => (g, mean (groupValues t g)))).insertionSort
        (fun x y => valLE x.2 y.2 = true) := by
  unfold avg_coverage_by_country at h
  by_cases h1 : "COUNTRY" ∈ t.cols
  · rw [if_pos h1] at h
    by_cases h2 : "COVERAGE" ∈ t.cols
    · rw [if_pos h2] at h
      simp only [Except.ok.injEq] at h
      exact h.symm
    · rw [if_neg h2] at h
      simp at h
  · rw [if_neg h1] at h
    simp at h

/-- Mean of a two-element list. -/
lemma mean_pair (a b : ℚ) : mean [a, b] = some ((a + b) / 2) := by
  norm_num [mean]

/-- Mean of a one-element list. -/
lemma mean_single (a : ℚ) : mean [a] = some a := by
  norm_num [mean]

/-- Concrete ranking of the fixture table. -/
lemma avg_tFix :
    avg_coverage_by_country tFix =
      Except.ok [("A", some (40:ℚ)), ("B", some (55:ℚ)), ("C", some (70:ℚ))] := by
  have hA : mean (groupValues tFix "A") = some (40:ℚ) := by
    rw [show groupValues tFix "A" = [(30:ℚ), (50:ℚ)] from rfl, mean_pair]; norm_num
  have hB : mean (groupValues tFix "B") = some (55:ℚ) := by
    rw [show groupValues tFix "B" = [(55:ℚ)] from rfl, mean_single]
  have hC : mean (groupValues tFix "C") = some (70:ℚ) := by
    rw [show groupValues tFix "C" = [(60:ℚ), (80:ℚ)] from rfl, mean_pair]; norm_num
  unfold avg_coverage_by_country
  rw [if_pos (show "COUNTRY" ∈ tFix.cols by decide),
      if_pos (show "COVERAGE" ∈ tFix.cols by decide),
      show sortedKeys tFix = ["A", "B", "C"] from rfl]
  simp only [List.map_cons, List.map_nil]
  rw [hA, hB, hC]
  norm_num [List.insertionSort, List.orderedInsert, valLE]

/-! ### Claim theorems -/

/-- C3, counterexample: the claim says cleaning silently ignores absent
drop fields, but on a table that lacks them `df.drop(columns=...)` raises a
`KeyError` (pandas default `errors="raise"`), so `clean` fails. -/
theorem C3_cex_clean_fails_on_absent_drop_fields :
    clean tNoDrop = Except.error "KeyError: labels not found in axis" := rfl

/-- C3, amended: removing the drop fields succeeds only when all of
WHO_REGION, ISO_CODE and DATA_SOURCE are columns of the table; if any is
absent (the category column being present, so cleaning reaches the drop
step), cleaning raises a KeyError instead of silently ignoring it. -/
theorem C3_clean_keyerror_on_absent_drop_field (t : Table) (c : String)
    (hv : "Vaccine" ∈ t.cols) (hc : c ∈ cols_to_drop) (habs : c ∉ t.cols) :
    clean t = Except.error "KeyError: labels not found in axis" := by
  have hall : (cols_to_drop.all fun d => t.cols.contains d) = false := by
    rw [List.all_eq_false]
    exact ⟨c, hc, by simp [List.contains, habs]⟩
  unfold clean cleanBlock filterEq dropColumns
  rw [if_pos hv]
  dsimp only
  rw [hall]
  rfl

/-- C3, witness for the amended theorem at a concrete table lacking only
ISO_CODE. -/
theorem C3_witness :
    clean tNoIso = Except.error "KeyError: labels not found in axis" :=
  C3_clean_keyerror_on_absent_drop_field tNoIso "ISO_CODE" (by decide)
    (by decide) (by decide)

/-- C5, counterexample: the claim covers every path that does not resolve
to a readable file, but when the file exists and is merely unreadable,
`pd.read_csv` raises `PermissionError`, which `except FileNotFoundError`
(line 87) does not catch — the run ends in an uncaught exception with no
diagnostic and no sentinel return, contradicting the claim at this input. -/
theorem C5_cex_unreadable_file_raises :
    analyze_immunization_data (fun _ => FsEntry.unreadable)
      "immunization_coverage.csv" =
      Outcome.raised "PermissionError" [] := rfl

/-- C5, amended: when no file exists at the path, the pipeline catches
`FileNotFoundError`, prints exactly the two diagnostic lines (the first
naming the missing path), writes no artifact, and returns normally
(`None`); when a file exists at the path but is unreadable, the
`PermissionError` propagates uncaught instead. -/
theorem C5_missing_file_two_lines_no_artifact (fs : String → FsEntry)
    (file_path : String) :
    (fs file_path = FsEntry.absent →
      analyze_immunization_data fs file_path =
        Outcome.ok [fnfLine1 file_path, fnfLine2] []) ∧
    (fs file_path = FsEntry.unreadable →
      analyze_immunization_data fs file_path =
        Outcome.raised "PermissionError" []) := by
  constructor <;> intro h <;> unfold analyze_immunization_data <;> rw [h]

/-- C5, witness: a filesystem with no file at all, and one whose file is
unreadable. -/
theorem C5_witness :
    analyze_immunization_data (fun _ => FsEntry.absent)
      "immunization_coverage.csv" =
      Outcome.ok [fnfLine1 "immunization_coverage.csv", fnfLine2] [] ∧
    analyze_immunization_data (fun _ => FsEntry.unreadable) "data.csv" =
      Outcome.raised "PermissionError" [] :=
  ⟨(C5_missing_file_two_lines_no_artifact (fun _ => FsEntry.absent)
      "immunization_coverage.csv").1 rfl,
   (C5_missing_file_two_lines_no_artifact (fun _ => FsEntry.unreadable)
      "data.csv").2 rfl⟩

/-- C8: on the fixture table whose three groups A, B, C have means 40, 55
and 70, ranking with bound 2 returns exactly A then B with their means. -/
theorem C8_fixture_rank_two :
    rank_groups tFix 2 =
      Except.ok [("A", some (40 : ℚ)), ("B", some (55 : ℚ))] := by
  unfold rank_groups
  rw [avg_tFix]
  rfl

/-- C1: a successful clean keeps exactly the rows whose Vaccine field is
DTP3: every output row has Vaccine = DTP3, and every input row with
Vaccine = DTP3 whose COVERAGE is not missing appears in the output (with
the drop fields removed). -/
theorem C1_clean_filter_correct (df t : Table) (n : Nat)
    (h : clean df = Except.ok (t, n)) :
    (∀ r ∈ t.rows, getCol r "Vaccine" = some (Value.str "DTP3")) ∧
    (∀ r ∈ df.rows, getCol r "Vaccine" = some (Value.str "DTP3") →
      notMissing (getCol r "COVERAGE") = true →
      r.filter (fun p => !cols_to_drop.contains p.1) ∈ t.rows) := by
  obtain ⟨st, hcb, hdtp, -⟩ := clean_ok h
  obtain ⟨-, -, -, -, -, hrows⟩ := cleanBlock_ok hcb
  rw [hdtp] at hrows
  constructor
  · intro r hr
    rw [hrows] at hr
    obtain ⟨hr1, hcov⟩ := List.mem_filter.mp hr
    obtain ⟨r0, hr0, rfl⟩ := List.mem_map.mp hr1
    obtain ⟨hr0mem, hvac⟩ := List.mem_filter.mp hr0
    have hvac2 : getCol r0 "Vaccine" = some (Value.str "DTP3") := by
      simpa using hvac
    rw [getCol_filter_keys r0 (show cols_to_drop.contains "Vaccine" = false from rfl)]
    exact hvac2
  · intro r hr hvac hcov
    rw [hrows]
    apply List.mem_filter.mpr
    refine ⟨List.mem_map.mpr ⟨r, List.mem_filter.mpr ⟨hr, by simp [hvac]⟩, rfl⟩, ?_⟩
    rw [getCol_filter_keys r (show cols_to_drop.contains "COVERAGE" = false from rfl)]
    exact hcov

/-- C1, witness at the concrete seven-column table `tFull`. -/
theorem C1_witness :
    (∀ r ∈ tFullCleaned.rows, getCol r "Vaccine" = some (Value.str "DTP3")) ∧
    (∀ r ∈ tFull.rows, getCol r "Vaccine" = some (Value.str "DTP3") →
      notMissing (getCol r "COVERAGE") = true →
      r.filter (fun p => !cols_to_drop.contains p.1) ∈ tFullCleaned.rows) :=
  C1_clean_filter_correct tFull tFullCleaned 1 rfl

/-- C9: cleaning does not mutate the loaded table — the `df` binding of the
cleaning block still holds the original table afterwards (line 32 takes a
`.copy()` before the in-place drops) — and every surviving row keeps every
non-dropped field value unchanged from the input row it came from. -/
theorem C9_clean_no_mutation (df : Table) (st : CleanLocals)
    (h : cleanBlock df = Except.ok st) :
    st.df = df ∧
    ∀ r2 ∈ st.df_dtp.rows, ∃ r ∈ df.rows,
      getCol r "Vaccine" = some (Value.str "DTP3") ∧
      notMissing (getCol r "COVERAGE") = true ∧
      ∀ c, cols_to_drop.contains c = false → getCol r2 c = getCol r c := by
  obtain ⟨hdf, -, -, -, -, hrows⟩ := cleanBlock_ok h
  refine ⟨hdf, ?_⟩
  intro r2 hr2
  rw [hrows] at hr2
  obtain ⟨hr1, hcov⟩ := List.mem_filter.mp hr2
  obtain ⟨r, hrmem, rfl⟩ := List.mem_map.mp hr1
  obtain ⟨hrdf, hvac⟩ := List.mem_filter.mp hrmem
  rw [getCol_filter_keys r (show cols_to_drop.contains "COVERAGE" = false from rfl)]
    at hcov
  exact ⟨r, hrdf, by simpa using hvac, hcov,
    fun c hc => getCol_filter_keys r hc⟩

/-- C9, witness at the concrete seven-column table `tFull`. -/
theorem C9_witness :
    (CleanLocals.mk tFull tFullCleaned 1).df = tFull ∧
    ∀ r2 ∈ (CleanLocals.mk tFull tFullCleaned 1).df_dtp.rows, ∃ r ∈ tFull.rows,
      getCol r "Vaccine" = some (Value.str "DTP3") ∧
      notMissing (getCol r "COVERAGE") = true ∧
      ∀ c, cols_to_drop.contains c = false → getCol r2 c = getCol r c :=
  C9_clean_no_mutation tFull (CleanLocals.mk tFull tFullCleaned 1) rfl

/-- Bool `contains` to membership. -/
lemma mem_of_contains {l : List String} {a : String}
    (h : l.contains a = true) : a ∈ l := by
  simpa [List.contains] using h

/-- C10: a readable input whose table lacks one of the expected columns
(Vaccine, a drop column, COVERAGE or COUNTRY) makes the pipeline raise an
uncaught key/lookup error — only the missing-file condition is caught. -/
theorem C10_missing_column_uncaught (fs : String → FsEntry) (p : String)
    (t : Table) (c : String)
    (hfs : fs p = FsEntry.table t)
    (hc : c ∈ ["Vaccine", "WHO_REGION", "ISO_CODE", "DATA_SOURCE", "COVERAGE", "COUNTRY"])
    (habs : c ∉ t.cols) :
    ∃ e pr, analyze_immunization_data fs p = Outcome.raised e pr := by
  unfold analyze_immunization_data
  rw [hfs]
  dsimp only
  cases hcb : cleanBlock t with
  | error e => exact ⟨e, _, rfl⟩
  | ok st =>
    dsimp only
    obtain ⟨-, hv, hall, hcov, hcols, -⟩ := cleanBlock_ok hcb
    have hAll := List.all_eq_true.mp hall
    have hcountry : ("COUNTRY" : String) ∉ t.cols := by
      simp only [List.mem_cons, List.not_mem_nil, or_false] at hc
      rcases hc with rfl | rfl | rfl | rfl | rfl | rfl
      · exact absurd hv habs
      · exact absurd (mem_of_contains (hAll _ (by simp [cols_to_drop]))) habs
      · exact absurd (mem_of_contains (hAll _ (by simp [cols_to_drop]))) habs
      · exact absurd (mem_of_contains (hAll _ (by simp [cols_to_drop]))) habs
      · exact absurd (List.mem_filter.mp hcov).1 habs
      · exact habs
    have hKc : ("COUNTRY" : String) ∉ st.df_dtp.cols := by
      rw [hcols]
      intro hmem
      exact hcountry (List.mem_filter.mp hmem).1
    have hlow : lowest_coverage_countries st.df_dtp =
        Except.error "KeyError: COUNTRY" := by
      unfold lowest_coverage_countries rank_groups avg_coverage_by_country
      rw [if_neg hKc]
      rfl
    rw [hlow]
    exact ⟨"KeyError: COUNTRY", _, rfl⟩

/-- C10, witness: a readable file whose table has no COUNTRY column. -/
theorem C10_witness :
    ∃ e pr,
      analyze_immunization_data (fun _ => FsEntry.table tNoCountry)
        "immunization_coverage.csv" = Outcome.raised e pr :=
  C10_missing_column_uncaught (fun _ => FsEntry.table tNoCountry)
    "immunization_coverage.csv" tNoCountry "COUNTRY" rfl (by decide) (by decide)

/-- C7: on a cleaned table with zero rows (and the cleaned schema), the
ranking step returns an empty ranked list and the trend-selection step an
empty trend mapping, both without error. -/
theorem C7_empty_table (t : Table)
    (hc : "COUNTRY" ∈ t.cols) (hv : "COVERAGE" ∈ t.cols) (hr : t.rows = []) :
    lowest_coverage_countries t = Except.ok [] ∧
    trendSeries t = Except.ok [] := by
  have hkeys : sortedKeys t = [] := by
    unfold sortedKeys countryKeys
    rw [hr]
    rfl
  have havg : avg_coverage_by_country t = Except.ok [] := by
    unfold avg_coverage_by_country
    rw [if_pos hc, if_pos hv, hkeys]
    rfl
  have hlow : lowest_coverage_countries t = Except.ok [] := by
    unfold lowest_coverage_countries rank_groups
    rw [havg]
    rfl
  have hcp : countries_to_plot t = Except.ok [] := by
    unfold countries_to_plot
    rw [hlow]
    rfl
  refine ⟨hlow, ?_⟩
  unfold trendSeries
  rw [hcp]
  rfl

/-- C7, witness at the concrete empty cleaned table. -/
theorem C7_witness :
    lowest_coverage_countries tEmpty = Except.ok [] ∧
    trendSeries tEmpty = Except.ok [] :=
  C7_empty_table tEmpty (by decide) (by decide) rfl

/-- C6: the ranking step with bound 10 returns exactly
min(10, number of distinct group identifiers) entries, in particular never
more than 10. -/
theorem C6_rank_bound (t : Table) (l : List (String × Option ℚ))
    (h : lowest_coverage_countries t = Except.ok l) :
    l.length = min 10 ((countryKeys t).dedup.length) ∧ l.length ≤ 10 := by
  unfold lowest_coverage_countries rank_groups at h
  cases havg : avg_coverage_by_country t with
  | error e =>
    rw [havg] at h
    simp [Except.map] at h
  | ok l0 =>
    rw [havg] at h
    simp only [Except.map, Except.ok.injEq] at h
    subst h
    have hlen : l0.length = (countryKeys t).dedup.length := by
      rw [avg_ok havg, List.length_insertionSort, List.length_map]
      unfold sortedKeys
      rw [List.length_insertionSort]
    rw [List.length_take, hlen]
    exact ⟨rfl, Nat.min_le_left _ _⟩

/-- C6, witness at the three-group fixture. -/
theorem C6_witness :
    ([(("A":String), some (40:ℚ)), ("B", some (55:ℚ)),
        ("C", some (70:ℚ))].length =
      min 10 ((countryKeys tFix).dedup.length)) ∧
    [(("A":String), some (40:ℚ)), ("B", some (55:ℚ)),
        ("C", some (70:ℚ))].length ≤ 10 :=
  C6_rank_bound tFix
    [("A", some (40:ℚ)), ("B", some (55:ℚ)), ("C", some (70:ℚ))]
    (by unfold lowest_coverage_countries rank_groups; rw [avg_tFix]; rfl)

/-- Membership to Bool `contains`. -/
lemma contains_of_mem {l : List String} {a : String}
    (h : a ∈ l) : l.contains a = true := by
  simpa [List.contains] using List.elem_iff.mpr h

/-- Concrete ranking of the out-of-order fixture. -/
lemma avg_tBad :
    avg_coverage_by_country tBad = Except.ok [("X", some (85:ℚ))] := by
  have hX : mean (groupValues tBad "X") = some (85:ℚ) := by
    rw [show groupValues tBad "X" = [(90:ℚ), (80:ℚ)] from rfl, mean_pair]
    norm_num
  unfold avg_coverage_by_country
  rw [if_pos (show "COUNTRY" ∈ tBad.cols by decide),
      if_pos (show "COVERAGE" ∈ tBad.cols by decide),
      show sortedKeys tBad = ["X"] from rfl]
  simp only [List.map_cons, List.map_nil]
  rw [hX]
  rfl

/-- Plot selection on the out-of-order fixture. -/
lemma cplot_tBad : countries_to_plot tBad = Except.ok ["X"] := by
  unfold countries_to_plot lowest_coverage_countries rank_groups
  rw [avg_tBad]
  rfl

/-- Trend series of the out-of-order fixture keep the row order. -/
lemma trend_tBad :
    trendSeries tBad = Except.ok
      [("X", [(some (Value.num 2005), some (Value.num 90)),
              (some (Value.num 2003), some (Value.num 80))])] := by
  unfold trendSeries
  rw [cplot_tBad]
  rfl

/-- Plot selection on the three-group fixture. -/
lemma cplot_tFix : countries_to_plot tFix = Except.ok ["A", "B", "C"] := by
  unfold countries_to_plot lowest_coverage_countries rank_groups
  rw [avg_tFix]
  rfl

/-- Trend series of the three-group fixture. -/
lemma trend_tFix :
    trendSeries tFix = Except.ok
      [("A", [(some (Value.num 2000), some (Value.num 30)),
              (some (Value.num 2001), some (Value.num 50))]),
       ("B", [(some (Value.num 2001), some (Value.num 55))]),
       ("C", [(some (Value.num 2000), some (Value.num 60)),
              (some (Value.num 2001), some (Value.num 80))])] := by
  unfold trendSeries
  rw [cplot_tFix]
  rfl

/-- C4, counterexample: on a cleaned table whose selected group X has its
two rows with YEAR 2005 before YEAR 2003, the trend-selection step yields
the pairs in that order, which is not ascending by period — line 60 only
subsets rows, it does not sort them (seaborn sorts by x only at render
time). -/
theorem C4_cex_trend_not_period_sorted :
    trendSeries tBad = Except.ok
      [("X", [(some (Value.num 2005), some (Value.num 90)),
              (some (Value.num 2003), some (Value.num 80))])] ∧
    periodAscending
      [(some (Value.num 2005), some (Value.num 90)),
       (some (Value.num 2003), some (Value.num 80))] = false := by
  refine ⟨trend_tBad, ?_⟩
  norm_num [periodAscending, periodLE]

/-- C4, amended: for every cleaned table and selected group, the
trend-selection step produces that group's (period, value) pairs in the
cleaned table's original row order — exactly the group's rows, as a
subsequence — not sorted by period; ordering by period happens only in the
renderer. -/
theorem C4_trend_series_row_order (t : Table)
    (sers : List (String × List (Option Value × Option Value)))
    (g : String) (ps : List (Option Value × Option Value))
    (h : trendSeries t = Except.ok sers) (hg : (g, ps) ∈ sers) :
    ps = (t.rows.filter (countryIs g)).map pairOf ∧
    (t.rows.filter (countryIs g)).Sublist t.rows := by
  refine ⟨?_, List.filter_sublist t.rows⟩
  unfold trendSeries at h
  cases hcp : countries_to_plot t with
  | error e =>
    rw [hcp] at h
    simp at h
  | ok gs =>
    rw [hcp] at h
    dsimp only at h
    simp only [Except.ok.injEq] at h
    subst h
    obtain ⟨g0, hg0, heq⟩ := List.mem_map.mp hg
    injection heq with h1 h2
    subst h1
    subst h2
    have hff : (t.rows.filter (inPlot gs)).filter (countryIs g0) =
        t.rows.filter (countryIs g0) := by
      rw [List.filter_filter]
      apply List.filter_congr
      intro r _
      by_cases hcg : countryIs g0 r = true
      · have hin : inPlot gs r = true := by
          have hsc : strCell r "COUNTRY" = some g0 := by
            simpa [countryIs] using hcg
          unfold inPlot
          rw [hsc]
          exact contains_of_mem hg0
        rw [hcg, hin]
        rfl
      · rw [Bool.not_eq_true] at hcg
        rw [hcg]
        rfl
    rw [hff]

/-- C4, witness for the amended theorem: group B of the three-group
fixture. -/
theorem C4_witness :
    [(some (Value.num 2001), some (Value.num 55))] =
      (tFix.rows.filter (countryIs "B")).map pairOf ∧
    (tFix.rows.filter (countryIs "B")).Sublist tFix.rows :=
  C4_trend_series_row_order tFix _ "B"
    [(some (Value.num 2001), some (Value.num 55))] trend_tFix
    (List.mem_cons.mpr (Or.inr (List.mem_cons.mpr (Or.inl rfl))))

end Analyzer
